import Mathlib

/-
Verification development for the Walmart-POS-Clone server.

The embedding models the transaction/refund subsystem of
src/server/src/index.js (routes POST /api/transactions and
POST /api/transactions/:id/refund) together with the transaction-code
generator (tcGenerator, src/unnamed/part_000).

Modelling conventions:
* JavaScript numbers are modelled as rationals (Rat).  All arithmetic the
  routes perform (sums, products, division by 100, negation) is exact on
  the inputs the claims quantify over, so Rat is a faithful carrier.
* Database rows are modelled as Lean structures.  Row identifiers are
  auto-increment naturals, following the schema in src/server/src/db.js
  (INTEGER PRIMARY KEY AUTOINCREMENT); the store assigns the next free
  identifier at insert time (nextTxId / nextItemId counters).
* Denormalised snapshot columns that no route logic ever reads back
  (cashier name, product name/sku/barcode/category on lines, created_at)
  are omitted from the row structures; they are write-only strings in the
  source and touch no claim.
* Each HTTP early return `res.status(...).json({error})` is one
  constructor of an error type; the route body becomes a function
  returning Except.  All database writes in the source happen inside
  session.withTransaction after validation, so a function that returns an
  error performs no write: the step wrappers (saleStep, refundStep) make
  that explicit by returning the unchanged database on error.
-/

namespace POS

/-- Wall-clock timestamp fields as read by the code generator.  The source
reads date.getFullYear(), getMonth() + 1, getDate(), getHours(),
getMinutes(); the month field here is already the 1-based value the source
obtains after adding 1. -/
structure DateW where
  year : Nat
  month : Nat
  day : Nat
  hour : Nat
  minute : Nat
  deriving DecidableEq, Repr

/-- Model of pad(num, size) in tcGenerator: num.toString().padStart(size, 0).
Pads on the left with the zero character up to the requested size and never
truncates a longer string. -/
def padStart (s : String) (size : Nat) : String :=
  String.mk (List.replicate (size - s.length) '0') ++ s

/-- Model of generateTC from tcGenerator (src/unnamed/part_000).
Format: YYYYMMDD-STORECODE-REGCODE-HHMM-SEQ where SEQ is the transaction
identifier zero-padded to width 6.  The identifier is passed as a string,
exactly as the routes pass transaction id toString(). -/
def generateTC (storeCode registerCode : String) (transactionId : String)
    (date : DateW) : String :=
  let datePart := padStart (Nat.repr date.year) 4 ++ padStart (Nat.repr date.month) 2
    ++ padStart (Nat.repr date.day) 2
  let timePart := padStart (Nat.repr date.hour) 2 ++ padStart (Nat.repr date.minute) 2
  let seqPart := padStart transactionId 6
  datePart ++ "-" ++ storeCode ++ "-" ++ registerCode ++ "-" ++ timePart ++ "-" ++ seqPart

/-- Consume exactly n decimal-digit characters from the front of the list,
returning the remainder, or none on failure. -/
def digitsRun : Nat → List Char → Option (List Char)
  | 0, cs => some cs
  | _ + 1, [] => none
  | n + 1, c :: cs => if c.isDigit then digitsRun n cs else none

/-- Consume an exact literal character sequence from the front of the list,
returning the remainder, or none on failure. -/
def litRun : List Char → List Char → Option (List Char)
  | [], cs => some cs
  | _ :: _, [] => none
  | l :: ls, c :: cs => if c = l then litRun ls cs else none

/-- Decision procedure for the anchored regular expression from the spec,
eight digits, the literal -001-R1-, four digits, a dash, six digits,
end of string. -/
def matchesTCRegex (s : String) : Bool :=
  match (((((digitsRun 8 s.data).bind
      (fun cs => litRun ("-001-R1-").data cs)).bind
      (fun cs => digitsRun 4 cs)).bind
      (fun cs => litRun ("-").data cs)).bind
      (fun cs => digitsRun 6 cs)) with
  | none => false
  | some cs => cs.isEmpty

/-- Store row (stores table). -/
structure Store where
  id : Nat
  code : String
  deriving DecidableEq, Repr

/-- Register row (registers table); store is the owning store id. -/
structure Register where
  id : Nat
  store : Nat
  code : String
  deriving DecidableEq, Repr

/-- Product row (products table). -/
structure Product where
  id : Nat
  price : Rat
  tax_rate : Rat
  active : Bool
  deriving DecidableEq, Repr

/-- Transaction row (transactions table).  The type column holds SALE or
REFUND; it is modelled as Option String because the refund route guards it
for JavaScript truthiness (an absent, null or empty value is falsy). -/
structure Transaction where
  id : Nat
  store : Nat
  register : Nat
  subtotal : Rat
  tax_total : Rat
  total : Rat
  payment_method : String
  tc_number : String
  type : Option String
  reference_transaction : Option Nat
  deriving DecidableEq, Repr

/-- Transaction line row (transaction_items table). -/
structure TransactionItem where
  id : Nat
  transaction : Nat
  product : Nat
  quantity : Rat
  unit_price : Rat
  line_total : Rat
  tax_amount : Rat
  deriving DecidableEq, Repr

/-- The persistent state the two routes read and write. -/
structure Db where
  stores : List Store
  registers : List Register
  products : List Product
  inventory : List ((Nat × Nat) × Rat)
  transactions : List Transaction
  txItems : List TransactionItem
  nextTxId : Nat
  nextItemId : Nat
  deriving DecidableEq, Repr

/-- Model of Inventory.findOneAndUpdate with an increment and upsert on the
key (store, product): an existing row has its quantity incremented, a
missing row is created zero-based and then incremented. -/
def invInc : List ((Nat × Nat) × Rat) → Nat × Nat → Rat → List ((Nat × Nat) × Rat)
  | [], key, delta => [(key, 0 + delta)]
  | (k, q) :: rest, key, delta =>
    if k = key then (k, q + delta) :: rest else (k, q) :: invInc rest key delta

/-- Inventory quantity at a key, zero when no row exists. -/
def invGet : List ((Nat × Nat) × Rat) → Nat × Nat → Rat
  | [], _ => 0
  | (k, q) :: rest, key => if k = key then q else invGet rest key

/-- Error outcomes of the SALE route, one constructor per distinct early
return in the source.  In the spec taxonomy, missingFields covers the
EmptyCart and missing-field 400s, and the invalid constructors are the
InvalidReference class. -/
inductive SaleError where
  | missingFields
  | missingPayment
  | invalidStore
  | invalidRegister
  | invalidItem
  | invalidProduct (productId : Nat)
  deriving DecidableEq, Repr

/-- Error outcomes of the REFUND route, one constructor per distinct early
return in the source.  notFound is the spec's NotFound, notSale its
InvalidState, quantityExceeded its QuantityExceeded; missingReference
models the 500 produced when a populated store or register document is
absent inside the write section. -/
inductive RefundError where
  | missingItems
  | notFound
  | notSale
  | emptyOriginal
  | invalidEntry
  | invalidItemId (transactionItemId : Nat)
  | quantityExceeded (transactionItemId : Nat)
  | noValidItems
  | missingReference
  deriving DecidableEq, Repr

instance {ε α : Type} [DecidableEq ε] [DecidableEq α] : DecidableEq (Except ε α) :=
  fun x y =>
    match x, y with
    | .error a, .error b =>
      if h : a = b then .isTrue (by rw [h]) else .isFalse (fun hc => h (Except.error.inj hc))
    | .ok a, .ok b =>
      if h : a = b then .isTrue (by rw [h]) else .isFalse (fun hc => h (Except.ok.inj hc))
    | .error _, .ok _ => .isFalse (fun hc => Except.noConfusion hc)
    | .ok _, .error _ => .isFalse (fun hc => Except.noConfusion hc)

/-- One requested cart line of the SALE route body. -/
structure SaleItemReq where
  productId : Nat
  quantity : Rat
  deriving DecidableEq, Repr

/-- One priced cart line, as accumulated by the SALE route loop. -/
structure CartItem where
  product : Product
  quantity : Rat
  unitPrice : Rat
  lineTotal : Rat
  taxAmount : Rat
  deriving DecidableEq, Repr

/-- The SALE pricing loop: validates each requested line, prices it from
the product row, and accumulates subtotal and taxTotal.  A zero productId
is rejected because the source tests the id for truthiness. -/
def priceCart (products : List Product) :
    List SaleItemReq → Except SaleError (List CartItem × Rat × Rat)
  | [] => .ok ([], 0, 0)
  | item :: rest =>
    if item.productId = 0 ∨ item.quantity ≤ 0 then .error .invalidItem
    else
      match products.find? (fun p => p.id == item.productId) with
      | none => .error (.invalidProduct item.productId)
      | some product =>
        if product.active = false then .error (.invalidProduct item.productId)
        else
          let unitPrice := product.price
          let lineTotal := unitPrice * item.quantity
          let taxAmount := lineTotal * product.tax_rate / 100
          match priceCart products rest with
          | .error e => .error e
          | .ok (cart, sub, tax) =>
            .ok (⟨product, item.quantity, unitPrice, lineTotal, taxAmount⟩ :: cart,
              lineTotal + sub, taxAmount + tax)

/-- Line rows written for a SALE, ids assigned consecutively from the
store's counter, money fields copied from the priced cart. -/
def saleItemDocs (txId : Nat) : Nat → List CartItem → List TransactionItem
  | _, [] => []
  | nextId, c :: rest =>
    { id := nextId, transaction := txId, product := c.product.id,
      quantity := c.quantity, unit_price := c.unitPrice,
      line_total := c.lineTotal, tax_amount := c.taxAmount }
      :: saleItemDocs txId (nextId + 1) rest

/-- The SALE inventory loop: one decrement per cart line. -/
def applySaleInventory (storeId : Nat) :
    List ((Nat × Nat) × Rat) → List CartItem → List ((Nat × Nat) × Rat)
  | inv, [] => inv
  | inv, c :: rest =>
    applySaleInventory storeId (invInc inv (storeId, c.product.id) (-c.quantity)) rest

/-- Model of POST /api/transactions (src/server/src/index.js lines 541-707).
All validation precedes the atomic write section; the write section
inserts the transaction, backfills its tc_number, inserts the line rows
and applies the inventory decrements. -/
def postSale (db : Db) (storeId registerId : Nat) (items : List SaleItemReq)
    (paymentMethod : String) (createdAt : DateW) :
    Except SaleError (Db × Transaction × List TransactionItem) :=
  if storeId = 0 ∨ registerId = 0 ∨ items.isEmpty then .error .missingFields
  else if paymentMethod = "" then .error .missingPayment
  else
    match db.stores.find? (fun s => s.id == storeId) with
    | none => .error .invalidStore
    | some store =>
      match db.registers.find? (fun r => r.id == registerId && r.store == storeId) with
      | none => .error .invalidRegister
      | some register =>
        match priceCart db.products items with
        | .error e => .error e
        | .ok (cart, subtotal, taxTotal) =>
          let total := subtotal + taxTotal
          let txId := db.nextTxId
          let tc := generateTC store.code register.code (Nat.repr txId) createdAt
          let tx : Transaction :=
            { id := txId, store := storeId, register := registerId,
              subtotal := subtotal, tax_total := taxTotal, total := total,
              payment_method := paymentMethod, tc_number := tc,
              type := some "SALE", reference_transaction := none }
          let docs := saleItemDocs txId db.nextItemId cart
          let db' : Db :=
            { db with
              transactions := db.transactions ++ [tx],
              txItems := db.txItems ++ docs,
              inventory := applySaleInventory storeId db.inventory cart,
              nextTxId := txId + 1,
              nextItemId := db.nextItemId + cart.length }
          .ok (db', tx, docs)

/-- One requested refund line of the REFUND route body. -/
structure RefundItemReq where
  transactionItemId : Nat
  quantity : Rat
  deriving DecidableEq, Repr

/-- Per-unit tax derivation of the refund route: tax_amount of the original
line divided by the absolute value of its quantity, and zero when that
quantity is zero. -/
def perUnitTax (originalItem : TransactionItem) : Rat :=
  if originalItem.quantity ≠ 0 then originalItem.tax_amount / |originalItem.quantity| else 0

/-- One accepted refund line with its accumulated money amounts. -/
structure RefundLine where
  originalItem : TransactionItem
  quantity : Rat
  unitPrice : Rat
  lineSubtotal : Rat
  lineTax : Rat
  deriving DecidableEq, Repr

/-- The refund validation loop: each requested line must have positive
quantity, resolve to a line of the original transaction, and request at
most the absolute value of the original quantity; money amounts are
accumulated from unit price and per-unit tax. -/
def buildRefundLines (originalItems : List TransactionItem) :
    List RefundItemReq → Except RefundError (List RefundLine × Rat × Rat)
  | [] => .ok ([], 0, 0)
  | item :: rest =>
    if item.quantity ≤ 0 then .error .invalidEntry
    else
      match originalItems.find? (fun ti => ti.id == item.transactionItemId) with
      | none => .error (.invalidItemId item.transactionItemId)
      | some originalItem =>
        if |originalItem.quantity| < item.quantity then
          .error (.quantityExceeded item.transactionItemId)
        else
          let unitPrice := originalItem.unit_price
          let lineSubtotal := unitPrice * item.quantity
          let lineTax := perUnitTax originalItem * item.quantity
          match buildRefundLines originalItems rest with
          | .error e => .error e
          | .ok (lines, sub, tax) =>
            .ok (⟨originalItem, item.quantity, unitPrice, lineSubtotal, lineTax⟩ :: lines,
              lineSubtotal + sub, lineTax + tax)

/-- Line rows written for a REFUND: negated quantity, line total and tax
amount; unit price kept unsigned from the original line. -/
def refundItemDocs (txId : Nat) : Nat → List RefundLine → List TransactionItem
  | _, [] => []
  | nextId, l :: rest =>
    { id := nextId, transaction := txId, product := l.originalItem.product,
      quantity := -l.quantity, unit_price := l.unitPrice,
      line_total := -l.lineSubtotal, tax_amount := -l.lineTax }
      :: refundItemDocs txId (nextId + 1) rest

/-- The REFUND inventory loop: one increment per refund line, restocking
the original's store. -/
def applyRefundInventory (storeId : Nat) :
    List ((Nat × Nat) × Rat) → List RefundLine → List ((Nat × Nat) × Rat)
  | inv, [] => inv
  | inv, l :: rest =>
    applyRefundInventory storeId (invInc inv (storeId, l.originalItem.product) l.quantity) rest

/-- JavaScript truthiness of the transaction type column: absent, null and
empty values are falsy. -/
def typeTruthy : Option String → Bool
  | none => false
  | some s => !(s == "")

/-- The refund route's guard on the original transaction: rejected exactly
when the type column is truthy and differs from SALE. -/
def refundTypeGuard (t : Option String) : Bool :=
  typeTruthy t && !(t == some "SALE")

/-- The original transaction's line rows, as loaded by the refund route
(TransactionItem.find on the original's id). -/
def originalItemsOf (db : Db) (original : Transaction) : List TransactionItem :=
  db.txItems.filter (fun ti => ti.transaction == original.id)

/-- Model of POST /api/transactions/:id/refund (src/server/src/index.js
lines 761-965).  Validation (original lookup, type guard, line checks)
precedes the atomic write section, which inserts the refund transaction,
backfills its tc_number, inserts negated line rows and applies inventory
increments at the original's store. -/
def postRefund (db : Db) (originalId : Nat) (items : List RefundItemReq)
    (createdAt : DateW) :
    Except RefundError (Db × Transaction × List TransactionItem) :=
  if items.isEmpty then .error .missingItems
  else
    match db.transactions.find? (fun t => t.id == originalId) with
    | none => .error .notFound
    | some original =>
      if refundTypeGuard original.type then .error .notSale
      else
        if (originalItemsOf db original).isEmpty then .error .emptyOriginal
        else
          match buildRefundLines (originalItemsOf db original) items with
          | .error e => .error e
          | .ok (lines, subtotal, taxTotal) =>
            if lines.isEmpty then .error .noValidItems
            else
              match db.stores.find? (fun s => s.id == original.store) with
              | none => .error .missingReference
              | some store =>
                match db.registers.find? (fun r => r.id == original.register) with
                | none => .error .missingReference
                | some register =>
                  let total := -(subtotal + taxTotal)
                  let txId := db.nextTxId
                  let tc := generateTC store.code register.code (Nat.repr txId) createdAt
                  let refundTx : Transaction :=
                    { id := txId, store := original.store, register := original.register,
                      subtotal := -subtotal, tax_total := -taxTotal, total := total,
                      payment_method := original.payment_method, tc_number := tc,
                      type := some "REFUND", reference_transaction := some original.id }
                  let docs := refundItemDocs txId db.nextItemId lines
                  let db' : Db :=
                    { db with
                      transactions := db.transactions ++ [refundTx],
                      txItems := db.txItems ++ docs,
                      inventory := applyRefundInventory original.store db.inventory lines,
                      nextTxId := txId + 1,
                      nextItemId := db.nextItemId + lines.length }
                  .ok (db', refundTx, docs)

/-- State-transition view of the SALE route: the database is replaced only
on success; every error leaves it unchanged (all writes happen inside the
all-or-nothing session in the source). -/
def saleStep (db : Db) (storeId registerId : Nat) (items : List SaleItemReq)
    (paymentMethod : String) (createdAt : DateW) : Db :=
  match postSale db storeId registerId items paymentMethod createdAt with
  | .ok (db', _, _) => db'
  | .error _ => db

/-- State-transition view of the REFUND route: the database is replaced
only on success; every error leaves it unchanged. -/
def refundStep (db : Db) (originalId : Nat) (items : List RefundItemReq)
    (createdAt : DateW) : Db :=
  match postRefund db originalId items createdAt with
  | .ok (db', _, _) => db'
  | .error _ => db

/-! Basic lemmas about the inventory association list. -/

theorem invGet_invInc (inv : List ((Nat × Nat) × Rat)) (key : Nat × Nat) (delta : Rat) :
    invGet (invInc inv key delta) key = invGet inv key + delta := by
  induction inv with
  | nil => simp [invInc, invGet]
  | cons e rest ih =>
    obtain ⟨k, q⟩ := e
    by_cases hk : k = key
    · subst hk
      simp [invInc, invGet]
    · simp [invInc, invGet, hk, ih]

theorem invGet_invInc_ne (inv : List ((Nat × Nat) × Rat)) (key key' : Nat × Nat)
    (delta : Rat) (hne : key ≠ key') :
    invGet (invInc inv key delta) key' = invGet inv key' := by
  induction inv with
  | nil => simp [invInc, invGet, hne]
  | cons e rest ih =>
    obtain ⟨k, q⟩ := e
    by_cases hk : k = key
    · subst hk
      simp [invInc, invGet, hne]
    · simp [invInc, invGet, hk, ih]

/-! Lemmas about decimal representations and padding, used for the
transaction-code format claims. -/

theorem digitChar_isDigit (m : Nat) (h : m < 10) : (Nat.digitChar m).isDigit := by
  interval_cases m <;> decide

theorem toDigitsCore_digits (fuel : Nat) :
    ∀ (n : Nat) (ds : List Char), (∀ c ∈ ds, c.isDigit) →
      ∀ c ∈ Nat.toDigitsCore 10 fuel n ds, c.isDigit := by
  induction fuel with
  | zero => intro n ds hds c hc; exact hds c hc
  | succ fuel ih =>
    intro n ds hds c hc
    rw [Nat.toDigitsCore] at hc
    have hd : ∀ x ∈ Nat.digitChar (n % 10) :: ds, x.isDigit := by
      intro x hx
      rcases List.mem_cons.mp hx with h1 | h2
      · subst h1
        exact digitChar_isDigit _ (Nat.mod_lt _ (by norm_num))
      · exact hds x h2
    split at hc
    · exact hd c hc
    · exact ih _ _ hd c hc

theorem repr_digits (n : Nat) : ∀ c ∈ (Nat.repr n).data, c.isDigit := by
  intro c hc
  exact toDigitsCore_digits _ _ _ (by intro x hx; cases hx) c hc

theorem padStart_length (s : String) (k : Nat) (h : s.length ≤ k) :
    (padStart s k).length = k := by
  simp [padStart, String.length_append, String.length_mk]
  omega

theorem padStart_digits (s : String) (k : Nat) (h : ∀ c ∈ s.data, c.isDigit) :
    ∀ c ∈ (padStart s k).data, c.isDigit := by
  intro c hc
  simp only [padStart, String.data_append, List.mem_append] at hc
  rcases hc with h1 | h2
  · have : c = '0' := by
      simpa using List.eq_of_mem_replicate h1
    subst this
    decide
  · exact h c h2

theorem digitsRun_append (l rest : List Char) (h : ∀ c ∈ l, c.isDigit) :
    digitsRun l.length (l ++ rest) = some rest := by
  induction l with
  | nil => simp [digitsRun]
  | cons c cs ih =>
    have hc : c.isDigit := h c (List.mem_cons_self c cs)
    simp only [List.length_cons, List.cons_append, digitsRun, hc, if_true]
    exact ih (fun x hx => h x (List.mem_cons_of_mem c hx))

theorem litRun_append (l rest : List Char) : litRun l (l ++ rest) = some rest := by
  induction l with
  | nil => simp [litRun]
  | cons c cs ih => simp [litRun, ih]

/-- The regular expression holds of any string whose characters are eight
digits, the literal middle section, four digits, a dash and six digits. -/
theorem matchesTCRegex_shape (s : String) (d8 t4 s6 : List Char)
    (hs : s.data = d8 ++ ('-' :: '0' :: '0' :: '1' :: '-' :: 'R' :: '1' :: '-'
      :: (t4 ++ '-' :: s6)))
    (h8 : d8.length = 8) (hd8 : ∀ c ∈ d8, c.isDigit)
    (h4 : t4.length = 4) (hd4 : ∀ c ∈ t4, c.isDigit)
    (h6 : s6.length = 6) (hd6 : ∀ c ∈ s6, c.isDigit) :
    matchesTCRegex s = true := by
  have e1 : digitsRun 8 s.data
      = some ('-' :: '0' :: '0' :: '1' :: '-' :: 'R' :: '1' :: '-' :: (t4 ++ '-' :: s6)) := by
    rw [hs, ← h8]
    exact digitsRun_append d8 _ hd8
  have e2 : litRun ['-', '0', '0', '1', '-', 'R', '1', '-'] ('-' :: '0' :: '0' :: '1'
      :: '-' :: 'R' :: '1' :: '-' :: (t4 ++ '-' :: s6)) = some (t4 ++ '-' :: s6) :=
    litRun_append ['-', '0', '0', '1', '-', 'R', '1', '-'] (t4 ++ '-' :: s6)
  have e3 : digitsRun 4 (t4 ++ '-' :: s6) = some ('-' :: s6) := by
    rw [← h4]
    exact digitsRun_append t4 _ hd4
  have e4 : litRun ['-'] ('-' :: s6) = some s6 := litRun_append ['-'] s6
  have e5 : digitsRun 6 s6 = some [] := by
    have := digitsRun_append s6 [] hd6
    rw [h6] at this
    simpa using this
  rw [matchesTCRegex]
  simp only [e1, Option.bind, e2, e3, e4, e5]
  simp

example : generateTC ("001") ("R1") ("42") ⟨2024, 3, 7, 9, 5⟩
    = "20240307-001-R1-0905-000042" := by rfl

/-- C9: the code generator is a pure deterministic function of storeCode,
registerCode, transactionId and timestamp; two calls with identical inputs
yield identical output. -/
theorem generateTC_deterministic (storeCode registerCode transactionId : String)
    (date : DateW) :
    generateTC storeCode registerCode transactionId date
      = generateTC storeCode registerCode transactionId date := rfl

/-- C5 (counterexample): the generated code does not always match the
regular expression of the claim.  The SEQ field is the transaction's
identifier left-padded to width 6 but never truncated, so the identifier
1000000 (the store's auto-increment counter past 999999) yields a 7-digit
SEQ and the anchored \d 6 group fails. -/
theorem generateTC_regex_counterexample :
    matchesTCRegex (generateTC ("001") ("R1") ("1000000") ⟨2024, 3, 7, 9, 5⟩)
      = false := by decide

/-- C5 (amended): the generated code is
YYYYMMDD-STORECODE-REGCODE-HHMM-SEQ with each numeric field zero-padded to
its width and SEQ the identifier zero-padded to width 6; with store code
001 and register code R1 it matches the regular expression
d8-001-R1-d4-d6 whenever the identifier is a string of at most six
decimal digits and the wall-clock fields fit their widths (year at most
four decimal digits, the others at most two). -/
theorem generateTC_regex_amended (id : String) (dt : DateW)
    (hid_len : id.length ≤ 6) (hid_dig : ∀ c ∈ id.data, c.isDigit)
    (hy : (Nat.repr dt.year).length ≤ 4)
    (hm : (Nat.repr dt.month).length ≤ 2)
    (hd : (Nat.repr dt.day).length ≤ 2)
    (hh : (Nat.repr dt.hour).length ≤ 2)
    (hmin : (Nat.repr dt.minute).length ≤ 2) :
    matchesTCRegex (generateTC ("001") ("R1") id dt) = true := by
  have dash : String.data "-" = ['-'] := rfl
  have lit001 : String.data "001" = ['0', '0', '1'] := rfl
  have litR1 : String.data "R1" = ['R', '1'] := rfl
  apply matchesTCRegex_shape _
    ((padStart (Nat.repr dt.year) 4).data ++ ((padStart (Nat.repr dt.month) 2).data
      ++ (padStart (Nat.repr dt.day) 2).data))
    ((padStart (Nat.repr dt.hour) 2).data ++ (padStart (Nat.repr dt.minute) 2).data)
    ((padStart id 6).data)
  · simp [generateTC, String.data_append, dash, lit001, litR1, List.append_assoc]
  · have l1 : (padStart (Nat.repr dt.year) 4).data.length = 4 :=
      padStart_length (Nat.repr dt.year) 4 hy
    have l2 : (padStart (Nat.repr dt.month) 2).data.length = 2 :=
      padStart_length (Nat.repr dt.month) 2 hm
    have l3 : (padStart (Nat.repr dt.day) 2).data.length = 2 :=
      padStart_length (Nat.repr dt.day) 2 hd
    simp only [List.length_append]
    omega
  · intro c hc
    rcases List.mem_append.mp hc with h1 | h2
    · exact padStart_digits _ _ (repr_digits dt.year) c h1
    · rcases List.mem_append.mp h2 with h2a | h2b
      · exact padStart_digits _ _ (repr_digits dt.month) c h2a
      · exact padStart_digits _ _ (repr_digits dt.day) c h2b
  · have l1 : (padStart (Nat.repr dt.hour) 2).data.length = 2 :=
      padStart_length (Nat.repr dt.hour) 2 hh
    have l2 : (padStart (Nat.repr dt.minute) 2).data.length = 2 :=
      padStart_length (Nat.repr dt.minute) 2 hmin
    simp only [List.length_append]
    omega
  · intro c hc
    rcases List.mem_append.mp hc with h1 | h2
    · exact padStart_digits _ _ (repr_digits dt.hour) c h1
    · exact padStart_digits _ _ (repr_digits dt.minute) c h2
  · exact padStart_length id 6 hid_len
  · exact padStart_digits id 6 hid_dig

/-- C5 (amended) witness: concrete instantiation with a six-digit-or-less
identifier and an in-range timestamp. -/
theorem generateTC_regex_amended_witness :
    matchesTCRegex (generateTC ("001") ("R1") ("42") ⟨2024, 3, 7, 9, 5⟩) = true :=
  generateTC_regex_amended ("42") ⟨2024, 3, 7, 9, 5⟩ (by decide) (by decide)
    (by decide) (by decide) (by decide) (by decide) (by decide)

/-! Facts guaranteed by the SALE pricing loop and write section. -/

theorem priceCart_ok (products : List Product) :
    ∀ (items : List SaleItemReq) (cart : List CartItem) (sub tax : Rat),
      priceCart products items = .ok (cart, sub, tax) →
      sub = (cart.map (fun c => c.lineTotal)).sum ∧
      tax = (cart.map (fun c => c.taxAmount)).sum ∧
      ∀ c ∈ cart, c.unitPrice = c.product.price ∧
        c.lineTotal = c.unitPrice * c.quantity ∧
        c.taxAmount = c.lineTotal * c.product.tax_rate / 100 ∧
        0 < c.quantity ∧ c.product ∈ products ∧ c.product.active = true := by
  intro items
  induction items with
  | nil =>
    intro cart sub tax h
    rw [priceCart] at h
    simp only [Except.ok.injEq, Prod.mk.injEq] at h
    obtain ⟨h1, h2, h3⟩ := h
    subst h1; subst h2; subst h3
    simp
  | cons item rest ih =>
    intro cart sub tax h
    rw [priceCart] at h
    split at h
    · simp at h
    · rename_i hvalid
      split at h
      · simp at h
      · rename_i product hfind
        split at h
        · simp at h
        · rename_i hact
          split at h
          · simp at h
          · rename_i cart' sub' tax' hrec
            simp only [Except.ok.injEq, Prod.mk.injEq] at h
            obtain ⟨h1, h2, h3⟩ := h
            subst h1; subst h2; subst h3
            obtain ⟨hs, ht, hmem⟩ := ih cart' sub' tax' hrec
            push_neg at hvalid
            refine ⟨by rw [hs]; simp, by rw [ht]; simp, ?_⟩
            intro c hc
            rcases List.mem_cons.mp hc with hhd | htl
            · subst hhd
              refine ⟨rfl, rfl, rfl, hvalid.2, ?_, ?_⟩
              · exact List.mem_of_find?_eq_some hfind
              · revert hact
                cases product.active <;> simp
            · exact hmem c htl

theorem mem_saleItemDocs (txId : Nat) :
    ∀ (n : Nat) (cart : List CartItem) (d : TransactionItem),
      d ∈ saleItemDocs txId n cart →
      ∃ c ∈ cart, d.transaction = txId ∧ d.product = c.product.id ∧
        d.quantity = c.quantity ∧ d.unit_price = c.unitPrice ∧
        d.line_total = c.lineTotal ∧ d.tax_amount = c.taxAmount := by
  intro n cart
  induction cart generalizing n with
  | nil => intro d hd; simp [saleItemDocs] at hd
  | cons c rest ih =>
    intro d hd
    rw [saleItemDocs] at hd
    rcases List.mem_cons.mp hd with hhd | htl
    · subst hhd
      exact ⟨c, List.mem_cons_self c rest, rfl, rfl, rfl, rfl, rfl, rfl⟩
    · obtain ⟨c', hc', hfacts⟩ := ih (n + 1) d htl
      exact ⟨c', List.mem_cons_of_mem c hc', hfacts⟩

/-- Inversion of a successful SALE posting: the references resolved, the
cart priced, and the result rows and state are exactly the ones the write
section constructs. -/
theorem postSale_ok_inv (db : Db) (storeId registerId : Nat) (items : List SaleItemReq)
    (paymentMethod : String) (createdAt : DateW) (db' : Db) (tx : Transaction)
    (docs : List TransactionItem)
    (h : postSale db storeId registerId items paymentMethod createdAt
      = .ok (db', tx, docs)) :
    ∃ store register cart subtotal taxTotal,
      db.stores.find? (fun s => s.id == storeId) = some store ∧
      db.registers.find? (fun r => r.id == registerId && r.store == storeId)
        = some register ∧
      priceCart db.products items = .ok (cart, subtotal, taxTotal) ∧
      tx = { id := db.nextTxId, store := storeId, register := registerId,
              subtotal := subtotal, tax_total := taxTotal, total := subtotal + taxTotal,
              payment_method := paymentMethod,
              tc_number := generateTC store.code register.code (Nat.repr db.nextTxId)
                createdAt,
              type := some "SALE", reference_transaction := none } ∧
      docs = saleItemDocs db.nextTxId db.nextItemId cart ∧
      db' = { db with
              transactions := db.transactions ++ [tx],
              txItems := db.txItems ++ docs,
              inventory := applySaleInventory storeId db.inventory cart,
              nextTxId := db.nextTxId + 1,
              nextItemId := db.nextItemId + cart.length } := by
  rw [postSale] at h
  split at h
  · simp at h
  · split at h
    · simp at h
    · split at h
      · simp at h
      · rename_i store hstore
        split at h
        · simp at h
        · rename_i register hregister
          split at h
          · simp at h
          · rename_i cart subtotal taxTotal hcart
            simp only [Except.ok.injEq, Prod.mk.injEq] at h
            obtain ⟨hdb, htx, hdocs⟩ := h
            exact ⟨store, register, cart, subtotal, taxTotal, hstore, hregister, hcart,
              htx.symm, hdocs.symm, by rw [← hdb, ← htx, ← hdocs]⟩

/-- C1: for every valid SALE posting, the committed transaction satisfies
total = subtotal + taxTotal, where subtotal is the sum over cart lines of
unitPrice times quantity and taxTotal the sum over cart lines of unitPrice
times quantity times taxRate over 100, and each stored line has lineTotal
equal to price times quantity and taxAmount equal to lineTotal times
taxRate over 100. -/
theorem sale_totals (db : Db) (storeId registerId : Nat) (items : List SaleItemReq)
    (paymentMethod : String) (createdAt : DateW) (db' : Db) (tx : Transaction)
    (docs : List TransactionItem)
    (h : postSale db storeId registerId items paymentMethod createdAt
      = .ok (db', tx, docs)) :
    tx.total = tx.subtotal + tx.tax_total ∧
    tx ∈ db'.transactions ∧
    (∃ cart subtotal taxTotal,
      priceCart db.products items = .ok (cart, subtotal, taxTotal) ∧
      tx.subtotal = (cart.map (fun c => c.unitPrice * c.quantity)).sum ∧
      tx.tax_total
        = (cart.map (fun c => c.unitPrice * c.quantity * c.product.tax_rate / 100)).sum) ∧
    ∀ d ∈ docs, d.line_total = d.unit_price * d.quantity ∧
      ∃ p ∈ db.products, p.id = d.product ∧ p.active = true ∧ d.unit_price = p.price ∧
        d.tax_amount = d.line_total * p.tax_rate / 100 := by
  obtain ⟨store, register, cart, subtotal, taxTotal, hstore, hreg, hcart, htx, hdocs, hdb⟩ :=
    postSale_ok_inv db storeId registerId items paymentMethod createdAt db' tx docs h
  obtain ⟨hsub, htax, hmem⟩ := priceCart_ok db.products items cart subtotal taxTotal hcart
  subst htx
  refine ⟨rfl, ?_, ⟨cart, subtotal, taxTotal, hcart, ?_, ?_⟩, ?_⟩
  · rw [hdb]
    simp
  · show subtotal = _
    rw [hsub]
    apply congrArg List.sum
    apply List.map_congr_left
    intro c hc
    obtain ⟨hup, hlt, _⟩ := hmem c hc
    rw [hlt, hup]
  · show taxTotal = _
    rw [htax]
    apply congrArg List.sum
    apply List.map_congr_left
    intro c hc
    obtain ⟨hup, hlt, hta, _⟩ := hmem c hc
    rw [hta, hlt, hup]
  · intro d hd
    obtain ⟨c, hc, hdtx, hdp, hdq, hdu, hdl, hdta⟩ := mem_saleItemDocs _ _ _ d (hdocs ▸ hd)
    obtain ⟨hup, hlt, hta, hq, hpmem, hact⟩ := hmem c hc
    constructor
    · rw [hdl, hdu, hdq, hlt]
    · refine ⟨c.product, hpmem, hdp.symm, hact, ?_, ?_⟩
      · rw [hdu, hup]
      · rw [hdta, hdl, hta]

/-- Demo database mirroring the seed data in src/server/src/db.js: store
001 with register R1 and one active product priced 2.99 at tax rate 5 with
100 units on hand. -/
def db0 : Db :=
  { stores := [{ id := 1, code := "001" }],
    registers := [{ id := 1, store := 1, code := "R1" }],
    products := [{ id := 1, price := 299/100, tax_rate := 5, active := true }],
    inventory := [((1, 1), 100)],
    transactions := [], txItems := [], nextTxId := 1, nextItemId := 1 }

/-- Concrete posting timestamp used by the witnesses. -/
def dt0 : DateW := ⟨2024, 3, 7, 9, 5⟩

/-- Transaction row produced by selling three units of the demo product. -/
def saleTx0 : Transaction :=
  { id := 1, store := 1, register := 1, subtotal := 897/100, tax_total := 897/2000,
    total := 18837/2000, payment_method := "CASH",
    tc_number := "20240307-001-R1-0905-000001", type := some "SALE",
    reference_transaction := none }

/-- Line row produced by selling three units of the demo product. -/
def saleDoc0 : TransactionItem :=
  { id := 1, transaction := 1, product := 1, quantity := 3, unit_price := 299/100,
    line_total := 897/100, tax_amount := 897/2000 }

/-- Line rows produced by selling three units of the demo product. -/
def saleDocs0 : List TransactionItem := [saleDoc0]

/-- Database state after the demo sale: inventory decremented to 97. -/
def db0' : Db :=
  { db0 with transactions := [saleTx0], txItems := saleDocs0,
             inventory := [((1, 1), 97)], nextTxId := 2, nextItemId := 2 }

/-- Evaluation of the demo sale: the route commits exactly the expected
transaction, line rows and state. -/
theorem postSale_db0_eval :
    postSale db0 1 1 [⟨1, 3⟩] ("CASH") dt0 = .ok (db0', saleTx0, saleDocs0) := by
  have htc : generateTC ("001") ("R1") (Nat.repr 1) ⟨2024, 3, 7, 9, 5⟩
      = "20240307-001-R1-0905-000001" := by rfl
  rw [postSale]
  norm_num [db0, dt0, List.find?, priceCart, saleItemDocs, applySaleInventory, invInc,
    db0', saleTx0, saleDocs0, saleDoc0, htc]
  intro hc
  exact absurd hc (by decide)

/-- C1 witness: the demo sale of the spec's concrete scenario, price 2.99,
tax rate 5, quantity 3. -/
theorem sale_totals_witness :
    saleTx0.total = saleTx0.subtotal + saleTx0.tax_total ∧
    saleTx0 ∈ db0'.transactions ∧
    (∃ cart subtotal taxTotal,
      priceCart db0.products [⟨1, 3⟩] = .ok (cart, subtotal, taxTotal) ∧
      saleTx0.subtotal = (cart.map (fun c => c.unitPrice * c.quantity)).sum ∧
      saleTx0.tax_total
        = (cart.map (fun c => c.unitPrice * c.quantity * c.product.tax_rate / 100)).sum) ∧
    ∀ d ∈ saleDocs0, d.line_total = d.unit_price * d.quantity ∧
      ∃ p ∈ db0.products, p.id = d.product ∧ p.active = true ∧ d.unit_price = p.price ∧
        d.tax_amount = d.line_total * p.tax_rate / 100 :=
  sale_totals db0 1 1 [⟨1, 3⟩] ("CASH") dt0 db0' saleTx0 saleDocs0 postSale_db0_eval

/-- C7 (counterexample): for an original line with zero quantity the
refund route's per-unit tax is 0, not unitPrice times taxRate over 100 as
the claim states; at unit price 2 and tax rate 10 the claim's fallback
formula gives 1/5 while the code gives 0. -/
theorem perUnitTax_fallback_counterexample :
    perUnitTax
      { id := 1, transaction := 1, product := 1, quantity := 0,
        unit_price := 2, line_total := 0, tax_amount := 5 } = 0 ∧
    (2 : Rat) * 10 / 100 ≠ 0 := by
  constructor
  · simp [perUnitTax]
  · norm_num

/-- C7 (amended): the refund per-unit tax equals the original line's
taxAmount divided by its quantity whenever that quantity is positive (the
source divides by the absolute value, which coincides), and equals 0, not
the claim's unitPrice times taxRate over 100 formula, when the original
quantity is zero. -/
theorem perUnitTax_amended (ti ti0 : TransactionItem)
    (hpos : 0 < ti.quantity) (h0 : ti0.quantity = 0) :
    perUnitTax ti = ti.tax_amount / ti.quantity ∧ perUnitTax ti0 = 0 := by
  constructor
  · rw [perUnitTax, if_pos (ne_of_gt hpos), abs_of_pos hpos]
  · simp [perUnitTax, h0]

/-- C7 (amended) witness: concrete positive-quantity and zero-quantity
lines. -/
theorem perUnitTax_amended_witness :
    perUnitTax
      { id := 1, transaction := 1, product := 1, quantity := 2,
        unit_price := 3, line_total := 6, tax_amount := 1 } = 1 / 2 ∧
    perUnitTax
      { id := 2, transaction := 1, product := 1, quantity := 0,
        unit_price := 3, line_total := 0, tax_amount := 0 } = 0 := by
  have h := perUnitTax_amended
    { id := 1, transaction := 1, product := 1, quantity := 2,
      unit_price := 3, line_total := 6, tax_amount := 1 }
    { id := 2, transaction := 1, product := 1, quantity := 0,
      unit_price := 3, line_total := 0, tax_amount := 0 }
    (by norm_num) rfl
  simpa using h

/-! Facts guaranteed by the REFUND validation loop and write section. -/

theorem buildRefundLines_ok (originalItems : List TransactionItem) :
    ∀ (items : List RefundItemReq) (lines : List RefundLine) (sub tax : Rat),
      buildRefundLines originalItems items = .ok (lines, sub, tax) →
      sub = (lines.map (fun l => l.lineSubtotal)).sum ∧
      tax = (lines.map (fun l => l.lineTax)).sum ∧
      ∀ l ∈ lines, l.unitPrice = l.originalItem.unit_price ∧
        l.lineSubtotal = l.unitPrice * l.quantity ∧
        l.lineTax = perUnitTax l.originalItem * l.quantity ∧
        0 < l.quantity ∧ l.quantity ≤ |l.originalItem.quantity| ∧
        l.originalItem ∈ originalItems := by
  intro items
  induction items with
  | nil =>
    intro lines sub tax h
    rw [buildRefundLines] at h
    simp only [Except.ok.injEq, Prod.mk.injEq] at h
    obtain ⟨h1, h2, h3⟩ := h
    subst h1; subst h2; subst h3
    simp
  | cons item rest ih =>
    intro lines sub tax h
    rw [buildRefundLines] at h
    split at h
    · simp at h
    · rename_i hqpos
      split at h
      · simp at h
      · rename_i originalItem hfind
        split at h
        · simp at h
        · rename_i hle
          split at h
          · simp at h
          · rename_i lines' sub' tax' hrec
            simp only [Except.ok.injEq, Prod.mk.injEq] at h
            obtain ⟨h1, h2, h3⟩ := h
            subst h1; subst h2; subst h3
            obtain ⟨hs, ht, hmem⟩ := ih lines' sub' tax' hrec
            refine ⟨by rw [hs]; simp, by rw [ht]; simp, ?_⟩
            intro l hl
            rcases List.mem_cons.mp hl with hhd | htl
            · subst hhd
              exact ⟨rfl, rfl, rfl, lt_of_not_le hqpos, not_lt.mp hle,
                List.mem_of_find?_eq_some hfind⟩
            · exact hmem l htl

theorem mem_refundItemDocs (txId : Nat) :
    ∀ (n : Nat) (lines : List RefundLine) (d : TransactionItem),
      d ∈ refundItemDocs txId n lines →
      ∃ l ∈ lines, d.transaction = txId ∧ d.product = l.originalItem.product ∧
        d.quantity = -l.quantity ∧ d.unit_price = l.unitPrice ∧
        d.line_total = -l.lineSubtotal ∧ d.tax_amount = -l.lineTax := by
  intro n lines
  induction lines generalizing n with
  | nil => intro d hd; simp [refundItemDocs] at hd
  | cons l rest ih =>
    intro d hd
    rw [refundItemDocs] at hd
    rcases List.mem_cons.mp hd with hhd | htl
    · subst hhd
      exact ⟨l, List.mem_cons_self l rest, rfl, rfl, rfl, rfl, rfl, rfl⟩
    · obtain ⟨l', hl', hfacts⟩ := ih (n + 1) d htl
      exact ⟨l', List.mem_cons_of_mem l hl', hfacts⟩

/-- Inversion of a successful REFUND posting: the original resolved and
passed the type guard, its lines were loaded, every requested line
validated, and the result rows and state are exactly the ones the write
section constructs. -/
theorem postRefund_ok_inv (db : Db) (originalId : Nat) (items : List RefundItemReq)
    (createdAt : DateW) (db' : Db) (tx : Transaction) (docs : List TransactionItem)
    (h : postRefund db originalId items createdAt = .ok (db', tx, docs)) :
    ∃ original lines subtotal taxTotal store register,
      db.transactions.find? (fun t => t.id == originalId) = some original ∧
      refundTypeGuard original.type = false ∧
      buildRefundLines (originalItemsOf db original) items
        = .ok (lines, subtotal, taxTotal) ∧
      db.stores.find? (fun s => s.id == original.store) = some store ∧
      db.registers.find? (fun r => r.id == original.register) = some register ∧
      tx = { id := db.nextTxId, store := original.store, register := original.register,
              subtotal := -subtotal, tax_total := -taxTotal,
              total := -(subtotal + taxTotal),
              payment_method := original.payment_method,
              tc_number := generateTC store.code register.code (Nat.repr db.nextTxId)
                createdAt,
              type := some "REFUND", reference_transaction := some original.id } ∧
      docs = refundItemDocs db.nextTxId db.nextItemId lines ∧
      db' = { db with
              transactions := db.transactions ++ [tx],
              txItems := db.txItems ++ docs,
              inventory := applyRefundInventory original.store db.inventory lines,
              nextTxId := db.nextTxId + 1,
              nextItemId := db.nextItemId + lines.length } := by
  rw [postRefund] at h
  split at h
  · simp at h
  · split at h
    · simp at h
    · rename_i original hfind
      split at h
      · simp at h
      · rename_i hguard
        split at h
        · simp at h
        · split at h
          · simp at h
          · rename_i lines subtotal taxTotal hlines
            split at h
            · simp at h
            · split at h
              · simp at h
              · rename_i store hstore
                split at h
                · simp at h
                · rename_i register hregister
                  simp only [Except.ok.injEq, Prod.mk.injEq] at h
                  obtain ⟨hdb, htx, hdocs⟩ := h
                  exact ⟨original, lines, subtotal, taxTotal, store, register, hfind,
                    by simpa using hguard, hlines, hstore, hregister, htx.symm, hdocs.symm,
                    by rw [← hdb, ← htx, ← hdocs]⟩

/-- C2: for every valid REFUND posting, the refund transaction's subtotal,
taxTotal and total are the negations of the sums accumulated from the
requested quantities times per-unit price and per-unit tax, the total is
at most 0 (given that the stored lines of the referenced original
transaction carry nonnegative unit prices and tax amounts, as every
SALE-written line does), and every stored refund line has negated
quantity, lineTotal and taxAmount while unit_price is the original
unsigned unit price. -/
theorem refund_totals (db : Db) (originalId : Nat) (items : List RefundItemReq)
    (createdAt : DateW) (db' : Db) (tx : Transaction) (docs : List TransactionItem)
    (hnn : ∀ ti ∈ db.txItems, ti.transaction = originalId →
      0 ≤ ti.unit_price ∧ 0 ≤ ti.tax_amount)
    (h : postRefund db originalId items createdAt = .ok (db', tx, docs)) :
    (∃ original lines subtotal taxTotal,
      db.transactions.find? (fun t => t.id == originalId) = some original ∧
      buildRefundLines (originalItemsOf db original) items
        = .ok (lines, subtotal, taxTotal) ∧
      subtotal = (lines.map (fun l => l.originalItem.unit_price * l.quantity)).sum ∧
      taxTotal = (lines.map (fun l => perUnitTax l.originalItem * l.quantity)).sum ∧
      tx.subtotal = -subtotal ∧ tx.tax_total = -taxTotal ∧
      tx.total = -(subtotal + taxTotal) ∧
      docs = refundItemDocs db.nextTxId db.nextItemId lines ∧
      ∀ d ∈ docs, ∃ l ∈ lines,
        d.quantity = -l.quantity ∧ 0 < l.quantity ∧
        d.line_total = -(l.originalItem.unit_price * l.quantity) ∧
        d.tax_amount = -(perUnitTax l.originalItem * l.quantity) ∧
        d.unit_price = l.originalItem.unit_price) ∧
    tx.total ≤ 0 := by
  obtain ⟨original, lines, subtotal, taxTotal, store, register, hfind, hguard, hlines,
    hstore, hreg, htx, hdocs, hdb⟩ :=
    postRefund_ok_inv db originalId items createdAt db' tx docs h
  obtain ⟨hsub, htax, hmem⟩ := buildRefundLines_ok _ items lines subtotal taxTotal hlines
  subst htx
  have hoid : original.id = originalId := by
    simpa using List.find?_some hfind
  have hsub' : subtotal
      = (lines.map (fun l => l.originalItem.unit_price * l.quantity)).sum := by
    rw [hsub]
    apply congrArg List.sum
    apply List.map_congr_left
    intro l hl
    obtain ⟨hup, hls, _⟩ := hmem l hl
    rw [hls, hup]
  have htax' : taxTotal
      = (lines.map (fun l => perUnitTax l.originalItem * l.quantity)).sum := by
    rw [htax]
    apply congrArg List.sum
    apply List.map_congr_left
    intro l hl
    obtain ⟨_, _, hlt, _⟩ := hmem l hl
    rw [hlt]
  have hsub_nn : 0 ≤ subtotal := by
    rw [hsub']
    apply List.sum_nonneg
    intro x hx
    simp only [List.mem_map] at hx
    obtain ⟨l, hl, hxe⟩ := hx
    obtain ⟨_, _, _, hq, _, hmem'⟩ := hmem l hl
    have hmf := List.mem_filter.mp hmem'
    have htr : l.originalItem.transaction = originalId := by
      rw [← hoid]
      simpa using hmf.2
    have hup : 0 ≤ l.originalItem.unit_price :=
      (hnn l.originalItem hmf.1 htr).1
    rw [← hxe]
    exact mul_nonneg hup (le_of_lt hq)
  have htax_nn : 0 ≤ taxTotal := by
    rw [htax']
    apply List.sum_nonneg
    intro x hx
    simp only [List.mem_map] at hx
    obtain ⟨l, hl, hxe⟩ := hx
    obtain ⟨_, _, _, hq, _, hmem'⟩ := hmem l hl
    have hmf := List.mem_filter.mp hmem'
    have htr : l.originalItem.transaction = originalId := by
      rw [← hoid]
      simpa using hmf.2
    have hta : 0 ≤ l.originalItem.tax_amount :=
      (hnn l.originalItem hmf.1 htr).2
    have hput : 0 ≤ perUnitTax l.originalItem := by
      rw [perUnitTax]
      split
      · exact div_nonneg hta (abs_nonneg _)
      · exact le_refl 0
    rw [← hxe]
    exact mul_nonneg hput (le_of_lt hq)
  refine ⟨⟨original, lines, subtotal, taxTotal, hfind, hlines, hsub', htax',
    rfl, rfl, rfl, hdocs, ?_⟩, ?_⟩
  · intro d hd
    obtain ⟨l, hl, hdt, hdp, hdq, hdu, hdl, hdta⟩ := mem_refundItemDocs _ _ _ d (hdocs ▸ hd)
    obtain ⟨hup, hls, hlt, hq, _⟩ := hmem l hl
    exact ⟨l, hl, hdq, hq, by rw [hdl, hls, hup], by rw [hdta, hlt],
      by rw [hdu, hup]⟩
  · show -(subtotal + taxTotal) ≤ 0
    exact neg_nonpos.mpr (add_nonneg hsub_nn htax_nn)

/-- Refund transaction row produced by refunding one of the three units of
the demo sale. -/
def refundTx0 : Transaction :=
  { id := 2, store := 1, register := 1, subtotal := -299/100, tax_total := -299/2000,
    total := -6279/2000, payment_method := "CASH",
    tc_number := "20240307-001-R1-0905-000002", type := some "REFUND",
    reference_transaction := some 1 }

/-- Line rows produced by the demo refund: negated quantity and money
fields, unit price unchanged. -/
def refundDocs0 : List TransactionItem :=
  [{ id := 2, transaction := 2, product := 1, quantity := -1, unit_price := 299/100,
     line_total := -299/100, tax_amount := -299/2000 }]

/-- Database state after the demo refund: inventory restocked to 98. -/
def db0r : Db :=
  { db0 with transactions := [saleTx0, refundTx0], txItems := saleDocs0 ++ refundDocs0,
             inventory := [((1, 1), 98)], nextTxId := 3, nextItemId := 3 }

/-- Evaluation of the demo refund: the route commits exactly the expected
refund transaction, line rows and state. -/
theorem postRefund_db0_eval :
    postRefund db0' 1 [⟨1, 1⟩] dt0 = .ok (db0r, refundTx0, refundDocs0) := by
  have htc : generateTC ("001") ("R1") (Nat.repr 2) ⟨2024, 3, 7, 9, 5⟩
      = "20240307-001-R1-0905-000002" := by rfl
  have habs : |(3 : Rat)| = 3 := abs_of_pos (by norm_num)
  rw [postRefund]
  norm_num [db0', db0, dt0, saleTx0, saleDocs0, List.find?, List.filter, originalItemsOf,
    buildRefundLines, perUnitTax, refundItemDocs, applyRefundInventory, invInc,
    refundTypeGuard, typeTruthy, db0r, refundTx0, refundDocs0, saleDoc0, htc, habs]

/-- C6: a refund request whose referenced original transaction has a
truthy kind other than SALE (in particular REFUND) fails with the notSale
error (the source's only-SALE-transactions-can-be-refunded 400, the spec's
InvalidState) and leaves the database unchanged, so no refund transaction
is created. -/
theorem refund_nonSale_rejected (db : Db) (originalId : Nat)
    (items : List RefundItemReq) (createdAt : DateW) (original : Transaction)
    (t : String)
    (hne : items ≠ [])
    (hfind : db.transactions.find? (fun tr => tr.id == originalId) = some original)
    (htype : original.type = some t) (ht1 : t ≠ "") (ht2 : t ≠ "SALE") :
    postRefund db originalId items createdAt = .error .notSale ∧
    refundStep db originalId items createdAt = db := by
  have hie : items.isEmpty = false := by
    cases items with
    | nil => exact absurd rfl hne
    | cons a l => rfl
  have hguard : refundTypeGuard original.type = true := by
    rw [htype, refundTypeGuard, typeTruthy]
    simp [ht1, ht2]
  have hres : postRefund db originalId items createdAt = .error .notSale := by
    rw [postRefund, if_neg (by simp [hie])]
    simp only [hfind]
    rw [if_pos hguard]
  exact ⟨hres, by rw [refundStep, hres]⟩

/-- C6 witness: attempting to refund the demo REFUND transaction fails
with notSale and changes nothing. -/
theorem refund_nonSale_rejected_witness :
    postRefund db0r 2 [⟨2, 1⟩] dt0 = .error .notSale ∧
    refundStep db0r 2 [⟨2, 1⟩] dt0 = db0r :=
  refund_nonSale_rejected db0r 2 [⟨2, 1⟩] dt0 refundTx0 ("REFUND")
    (by decide) (by rfl) (by rfl) (by decide) (by decide)

/-- An error produced by the refund validation loop is always one of
invalidEntry, invalidItemId or quantityExceeded. -/
theorem buildRefundLines_error_cases (originalItems : List TransactionItem) :
    ∀ (items : List RefundItemReq) (e : RefundError),
      buildRefundLines originalItems items = .error e →
      e = .invalidEntry ∨ (∃ t, e = .invalidItemId t) ∨ (∃ t, e = .quantityExceeded t) := by
  intro items
  induction items with
  | nil =>
    intro e h
    rw [buildRefundLines] at h
    simp at h
  | cons item rest ih =>
    intro e h
    rw [buildRefundLines] at h
    split at h
    · simp only [Except.error.injEq] at h
      subst h
      exact Or.inl rfl
    · split at h
      · simp only [Except.error.injEq] at h
        subst h
        exact Or.inr (Or.inl ⟨_, rfl⟩)
      · split at h
        · simp only [Except.error.injEq] at h
          subst h
          exact Or.inr (Or.inr ⟨_, rfl⟩)
        · split at h
          · rename_i e' hrec
            simp only [Except.error.injEq] at h
            subst h
            exact ih e' hrec
          · simp at h

/-- C10: the refund route's SALE-only guard only fires when the type
column is truthy; an original transaction whose type is absent or the
empty string passes the guard, so the refund proceeds as if the original
were a SALE and in particular never fails with the notSale error. -/
theorem refund_falsy_type_not_invalidState (db : Db) (originalId : Nat)
    (items : List RefundItemReq) (createdAt : DateW) (original : Transaction)
    (hfind : db.transactions.find? (fun t => t.id == originalId) = some original)
    (htype : original.type = none ∨ original.type = some "") :
    refundTypeGuard original.type = false ∧
    ∀ e, postRefund db originalId items createdAt = .error e
      → e ≠ RefundError.notSale := by
  have hguard : refundTypeGuard original.type = false := by
    rcases htype with h1 | h1 <;> rw [h1] <;> rfl
  refine ⟨hguard, ?_⟩
  intro e he
  rw [postRefund] at he
  split at he
  · simp only [Except.error.injEq] at he
    subst he
    decide
  · split at he
    · simp only [Except.error.injEq] at he
      subst he
      decide
    · rename_i original' hfind'
      rw [hfind] at hfind'
      have horig : original' = original := by
        injection hfind'.symm
      subst horig
      split at he
      · rename_i hg
        rw [hguard] at hg
        simp at hg
      · split at he
        · simp only [Except.error.injEq] at he
          subst he
          decide
        · split at he
          · rename_i e' hrec
            simp only [Except.error.injEq] at he
            subst he
            rcases buildRefundLines_error_cases _ items e' hrec with h1 | ⟨t, h1⟩ | ⟨t, h1⟩
              <;> subst h1 <;> simp
          · split at he
            · simp only [Except.error.injEq] at he
              subst he
              decide
            · split at he
              · simp only [Except.error.injEq] at he
                subst he
                decide
              · split at he
                · simp only [Except.error.injEq] at he
                  subst he
                  decide
                · simp at he

/-- Original transaction of the demo sale with its type column absent. -/
def noTypeTx0 : Transaction := { saleTx0 with type := none }

/-- Demo state after the sale, with the stored transaction lacking a type
value. -/
def dbNT : Db := { db0' with transactions := [noTypeTx0] }

/-- C10 witness: refunding the type-less original is never rejected with
notSale. -/
theorem refund_falsy_type_not_invalidState_witness :
    refundTypeGuard noTypeTx0.type = false ∧
    ∀ e, postRefund dbNT 1 [⟨1, 1⟩] dt0 = .error e → e ≠ RefundError.notSale :=
  refund_falsy_type_not_invalidState dbNT 1 [⟨1, 1⟩] dt0 noTypeTx0 (by rfl)
    (Or.inl (by rfl))

/-- If every requested refund line is positive and resolves against the
original's lines, but some requested quantity strictly exceeds the
absolute value of its original line's quantity, the validation loop stops
with a quantityExceeded error. -/
theorem buildRefundLines_exceeds (originalItems : List TransactionItem) :
    ∀ (items : List RefundItemReq),
      (∀ i ∈ items, 0 < i.quantity ∧ ∃ ti,
        originalItems.find? (fun x => x.id == i.transactionItemId) = some ti) →
      (∃ i ∈ items, ∀ ti,
        originalItems.find? (fun x => x.id == i.transactionItemId) = some ti →
        |ti.quantity| < i.quantity) →
      ∃ tid, buildRefundLines originalItems items
        = .error (.quantityExceeded tid) := by
  intro items
  induction items with
  | nil =>
    intro _ hex
    simp at hex
  | cons item rest ih =>
    intro hval hex
    obtain ⟨hpos, ti, hfind⟩ := hval item (List.mem_cons_self _ _)
    by_cases hq : |ti.quantity| < item.quantity
    · refine ⟨item.transactionItemId, ?_⟩
      rw [buildRefundLines, if_neg (not_le.mpr hpos)]
      simp only [hfind]
      rw [if_pos hq]
    · rcases hex with ⟨j, hj, hjex⟩
      rcases List.mem_cons.mp hj with hji | hjr
      · exfalso
        subst hji
        exact hq (hjex ti hfind)
      · obtain ⟨tid, htid⟩ :=
          ih (fun i hi => hval i (List.mem_cons_of_mem _ hi)) ⟨j, hjr, hjex⟩
        refine ⟨tid, ?_⟩
        rw [buildRefundLines, if_neg (not_le.mpr hpos)]
        simp only [hfind]
        rw [if_neg hq]
        simp [htid]

/-- C3: a refund request containing a line whose requested quantity
strictly exceeds the absolute value of the matching original line's
quantity (all lines otherwise valid) is rejected with the
quantityExceeded error (the spec's QuantityExceeded) and leaves the
inventory and the ledger unchanged. -/
theorem refund_quantity_exceeded_rejected (db : Db) (originalId : Nat)
    (items : List RefundItemReq) (createdAt : DateW) (original : Transaction)
    (hfind : db.transactions.find? (fun t => t.id == originalId) = some original)
    (hguard : refundTypeGuard original.type = false)
    (hval : ∀ i ∈ items, 0 < i.quantity ∧ ∃ ti,
      (originalItemsOf db original).find? (fun x => x.id == i.transactionItemId)
        = some ti)
    (hex : ∃ i ∈ items, ∀ ti,
      (originalItemsOf db original).find? (fun x => x.id == i.transactionItemId)
        = some ti → |ti.quantity| < i.quantity) :
    (∃ tid, postRefund db originalId items createdAt
      = .error (.quantityExceeded tid)) ∧
    refundStep db originalId items createdAt = db := by
  obtain ⟨i0, hi0, _⟩ := id hex
  have hie : items.isEmpty = false := by
    cases items with
    | nil => simp at hi0
    | cons a l => rfl
  have hOrigNe : (originalItemsOf db original).isEmpty = false := by
    obtain ⟨_, ti, hfd⟩ := hval i0 hi0
    have hmem := List.mem_of_find?_eq_some hfd
    rcases hlist : originalItemsOf db original with _ | ⟨a, l⟩
    · rw [hlist] at hmem
      simp at hmem
    · rfl
  obtain ⟨tid, htid⟩ := buildRefundLines_exceeds _ items hval hex
  have hres : postRefund db originalId items createdAt
      = .error (.quantityExceeded tid) := by
    rw [postRefund, if_neg (by simp [hie])]
    simp only [hfind]
    rw [if_neg (by simp [hguard]), if_neg (by simp [hOrigNe])]
    simp [htid]
  exact ⟨⟨tid, hres⟩, by rw [refundStep, hres]⟩

/-- C3 witness: requesting 4 units against the 3-unit demo sale line is
rejected with quantityExceeded and changes nothing. -/
theorem refund_quantity_exceeded_rejected_witness :
    (∃ tid, postRefund db0' 1 [⟨1, 4⟩] dt0
      = .error (.quantityExceeded tid)) ∧
    refundStep db0' 1 [⟨1, 4⟩] dt0 = db0' := by
  have hfd : (originalItemsOf db0' saleTx0).find? (fun x => x.id == 1)
      = some { id := 1, transaction := 1, product := 1, quantity := 3,
               unit_price := 299/100, line_total := 897/100,
               tax_amount := 897/2000 } := by rfl
  apply refund_quantity_exceeded_rejected db0' 1 [⟨1, 4⟩] dt0 saleTx0 (by rfl) (by rfl)
  · intro i hi
    rw [List.mem_singleton] at hi
    subst hi
    exact ⟨by norm_num, ⟨_, hfd⟩⟩
  · refine ⟨⟨1, 4⟩, by simp, ?_⟩
    intro ti hti
    rw [hfd] at hti
    injection hti with hti
    subst hti
    rw [abs_of_pos (by norm_num)]
    norm_num

/-- Inversion of the pricing loop on a single-line cart. -/
theorem priceCart_singleton (products : List Product) (pid : Nat) (q : Rat)
    (cart : List CartItem) (sub tax : Rat)
    (h : priceCart products [⟨pid, q⟩] = .ok (cart, sub, tax)) :
    ∃ p, products.find? (fun x => x.id == pid) = some p ∧
      cart = [⟨p, q, p.price, p.price * q, p.price * q * p.tax_rate / 100⟩] ∧
      sub = p.price * q + 0 ∧ tax = p.price * q * p.tax_rate / 100 + 0 := by
  simp only [priceCart] at h
  split at h
  · simp at h
  · split at h
    · simp at h
    · rename_i p hfind
      split at h
      · simp at h
      · simp only [Except.ok.injEq, Prod.mk.injEq] at h
        obtain ⟨h1, h2, h3⟩ := h
        exact ⟨p, hfind, h1.symm, h2.symm, h3.symm⟩

/-- Evaluation of the refund validation loop on a single full line. -/
theorem buildRefundLines_single (doc : TransactionItem) (q : Rat)
    (hq : 0 < q) (hdq : doc.quantity = q) :
    buildRefundLines [doc] [⟨doc.id, q⟩]
      = .ok ([⟨doc, q, doc.unit_price, doc.unit_price * q, perUnitTax doc * q⟩],
          doc.unit_price * q + 0, perUnitTax doc * q + 0) := by
  have hfind : List.find? (fun x => x.id == doc.id) [doc] = some doc := by
    simp [List.find?]
  rw [buildRefundLines, if_neg (not_le.mpr hq)]
  simp only [hfind]
  rw [if_neg (by rw [hdq, abs_of_pos hq]; exact lt_irrefl q)]
  simp [buildRefundLines]

/-- C4: posting a SALE of quantity q for product p at store s decreases
the inventory quantity at (s, p) by exactly q (a missing row is upserted
zero-based, so the quantity is read as 0 beforehand and may go negative;
oversell is not blocked), and a subsequent full REFUND of that same line
increments it by q, restoring the pre-sale value. -/
theorem sale_refund_inventory (db : Db) (storeId registerId pid : Nat)
    (paymentMethod : String) (q : Rat) (d1 d2 : DateW)
    (db1 db2 : Db) (tx rtx : Transaction) (doc : TransactionItem)
    (rdocs : List TransactionItem)
    (hq : 0 < q)
    (hwfT : ∀ t ∈ db.transactions, t.id ≠ db.nextTxId)
    (hwfI : ∀ ti ∈ db.txItems, ti.transaction ≠ db.nextTxId)
    (hsale : postSale db storeId registerId [⟨pid, q⟩] paymentMethod d1
      = .ok (db1, tx, [doc]))
    (hrefund : postRefund db1 tx.id [⟨doc.id, q⟩] d2 = .ok (db2, rtx, rdocs)) :
    invGet db1.inventory (storeId, pid) = invGet db.inventory (storeId, pid) - q ∧
    invGet db2.inventory (storeId, pid) = invGet db.inventory (storeId, pid) := by
  obtain ⟨store, register, cart, subtotal, taxTotal, hstore, hreg, hcart, htx, hdocs, hdb1⟩ :=
    postSale_ok_inv db storeId registerId [⟨pid, q⟩] paymentMethod d1 db1 tx [doc] hsale
  obtain ⟨p, hpfind, hcart_eq, hsub, htax⟩ :=
    priceCart_singleton db.products pid q cart subtotal taxTotal hcart
  have hpid : p.id = pid := by
    have := List.find?_some hpfind
    simpa using this
  subst hcart_eq
  have hdoc : doc =
      { id := db.nextItemId, transaction := db.nextTxId,
        product := p.id, quantity := q, unit_price := p.price,
        line_total := p.price * q, tax_amount := p.price * q * p.tax_rate / 100 } := by
    have h1 := hdocs
    rw [saleItemDocs, saleItemDocs] at h1
    simpa using h1
  have htxid : tx.id = db.nextTxId := by rw [htx]
  have hts : tx.store = storeId := by rw [htx]
  have hinv1 : db1.inventory = invInc db.inventory (storeId, pid) (-q) := by
    rw [hdb1]
    show applySaleInventory storeId db.inventory _ = _
    rw [applySaleInventory, applySaleInventory]
    simp only [hpid]
  have hfst : invGet db1.inventory (storeId, pid)
      = invGet db.inventory (storeId, pid) - q := by
    rw [hinv1, invGet_invInc, sub_eq_add_neg]
  refine ⟨hfst, ?_⟩
  obtain ⟨original, lines, subtotal', taxTotal', store', register', hfind', hguard',
    hlines', hstore', hreg', hrtx, hrdocs, hdb2⟩ :=
    postRefund_ok_inv db1 tx.id [⟨doc.id, q⟩] d2 db2 rtx rdocs hrefund
  have htr1 : db1.transactions = db.transactions ++ [tx] := by rw [hdb1]
  have horig : original = tx := by
    rw [htr1, List.find?_append] at hfind'
    have hnone : db.transactions.find? (fun t => t.id == tx.id) = none := by
      rw [List.find?_eq_none]
      intro t ht
      simp only [beq_iff_eq]
      rw [htxid]
      exact hwfT t ht
    rw [hnone] at hfind'
    simp only [Option.none_or] at hfind'
    simp [List.find?] at hfind'
    exact hfind'.symm
  subst horig
  have hti1 : db1.txItems = db.txItems ++ [doc] := by rw [hdb1]
  have hitems : originalItemsOf db1 original = [doc] := by
    rw [originalItemsOf, hti1, List.filter_append]
    have hl : db.txItems.filter (fun ti => ti.transaction == original.id) = [] := by
      rw [List.filter_eq_nil_iff]
      intro ti hti
      simp only [beq_iff_eq]
      rw [htxid]
      exact hwfI ti hti
    have hr : [doc].filter (fun ti => ti.transaction == original.id) = [doc] := by
      have : doc.transaction = original.id := by rw [hdoc, htxid]
      simp [List.filter, this]
    rw [hl, hr]
    simp
  have hdq : doc.quantity = q := by rw [hdoc]
  have hbl := buildRefundLines_single doc q hq hdq
  rw [hitems, hbl] at hlines'
  simp only [Except.ok.injEq, Prod.mk.injEq] at hlines'
  obtain ⟨hlines_eq, hsub', htax'⟩ := hlines'
  have hinv2 : db2.inventory = invInc db1.inventory (storeId, pid) q := by
    rw [hdb2]
    show applyRefundInventory original.store db1.inventory lines = _
    rw [← hlines_eq, applyRefundInventory, applyRefundInventory]
    simp only [hts]
    have hdp : doc.product = pid := by rw [hdoc, hpid]
    simp only [hdp]
  rw [hinv2, invGet_invInc, hfst]
  ring

/-- Refund transaction row produced by fully refunding the three-unit
demo sale. -/
def refundTx3 : Transaction :=
  { id := 2, store := 1, register := 1, subtotal := -897/100, tax_total := -897/2000,
    total := -18837/2000, payment_method := "CASH",
    tc_number := "20240307-001-R1-0905-000002", type := some "REFUND",
    reference_transaction := some 1 }

/-- Line rows produced by the full demo refund. -/
def refundDocs3 : List TransactionItem :=
  [{ id := 2, transaction := 2, product := 1, quantity := -3, unit_price := 299/100,
     line_total := -897/100, tax_amount := -897/2000 }]

/-- Database state after the full demo refund: inventory restored to 100. -/
def db0r3 : Db :=
  { db0 with transactions := [saleTx0, refundTx3], txItems := saleDocs0 ++ refundDocs3,
             inventory := [((1, 1), 100)], nextTxId := 3, nextItemId := 3 }

/-- Evaluation of the full demo refund. -/
theorem postRefund_db0_full_eval :
    postRefund db0' 1 [⟨1, 3⟩] dt0 = .ok (db0r3, refundTx3, refundDocs3) := by
  have htc : generateTC ("001") ("R1") (Nat.repr 2) ⟨2024, 3, 7, 9, 5⟩
      = "20240307-001-R1-0905-000002" := by rfl
  have habs : |(3 : Rat)| = 3 := abs_of_pos (by norm_num)
  rw [postRefund]
  norm_num [db0', db0, dt0, saleTx0, saleDocs0, List.find?, List.filter, originalItemsOf,
    buildRefundLines, perUnitTax, refundItemDocs, applyRefundInventory, invInc,
    refundTypeGuard, typeTruthy, db0r3, refundTx3, refundDocs3, saleDoc0, htc, habs]

/-- C4 witness: the demo sale of three units takes the inventory from 100
to 97; the full refund restores 100. -/
theorem sale_refund_inventory_witness :
    invGet db0'.inventory (1, 1) = invGet db0.inventory (1, 1) - 3 ∧
    invGet db0r3.inventory (1, 1) = invGet db0.inventory (1, 1) :=
  sale_refund_inventory db0 1 1 1 ("CASH") 3 dt0 dt0 db0' db0r3 saleTx0 refundTx3
    saleDoc0 refundDocs3 (by norm_num)
    (by intro t ht; simp [db0] at ht)
    (by intro ti hti; simp [db0] at hti)
    postSale_db0_eval postRefund_db0_full_eval

/-- Sale transaction row of the two-unit over-refund sequence. -/
def txA : Transaction :=
  { id := 1, store := 1, register := 1, subtotal := 299/50, tax_total := 299/1000,
    total := 6279/1000, payment_method := "CASH",
    tc_number := "20240307-001-R1-0905-000001", type := some "SALE",
    reference_transaction := none }

/-- Line rows of the two-unit sale. -/
def docsA : List TransactionItem :=
  [{ id := 1, transaction := 1, product := 1, quantity := 2, unit_price := 299/100,
     line_total := 299/50, tax_amount := 299/1000 }]

/-- State after the two-unit sale: inventory 98. -/
def dbA : Db :=
  { db0 with transactions := [txA], txItems := docsA,
             inventory := [((1, 1), 98)], nextTxId := 2, nextItemId := 2 }

/-- First refund transaction of the over-refund sequence. -/
def txB : Transaction :=
  { id := 2, store := 1, register := 1, subtotal := -299/50, tax_total := -299/1000,
    total := -6279/1000, payment_method := "CASH",
    tc_number := "20240307-001-R1-0905-000002", type := some "REFUND",
    reference_transaction := some 1 }

/-- Line rows of the first two-unit refund. -/
def docsB : List TransactionItem :=
  [{ id := 2, transaction := 2, product := 1, quantity := -2, unit_price := 299/100,
     line_total := -299/50, tax_amount := -299/1000 }]

/-- State after the first refund: inventory back to 100. -/
def dbB : Db :=
  { db0 with transactions := [txA, txB], txItems := docsA ++ docsB,
             inventory := [((1, 1), 100)], nextTxId := 3, nextItemId := 3 }

/-- Second refund transaction of the over-refund sequence. -/
def txC : Transaction :=
  { id := 3, store := 1, register := 1, subtotal := -299/50, tax_total := -299/1000,
    total := -6279/1000, payment_method := "CASH",
    tc_number := "20240307-001-R1-0905-000003", type := some "REFUND",
    reference_transaction := some 1 }

/-- Line rows of the second two-unit refund. -/
def docsC : List TransactionItem :=
  [{ id := 3, transaction := 3, product := 1, quantity := -2, unit_price := 299/100,
     line_total := -299/50, tax_amount := -299/1000 }]

/-- State after the second refund: inventory 102, above the pre-sale 100. -/
def dbC : Db :=
  { db0 with transactions := [txA, txB, txC], txItems := docsA ++ docsB ++ docsC,
             inventory := [((1, 1), 102)], nextTxId := 4, nextItemId := 4 }

/-- Evaluation of the two-unit sale. -/
theorem postSale_dbA_eval :
    postSale db0 1 1 [⟨1, 2⟩] ("CASH") dt0 = .ok (dbA, txA, docsA) := by
  have htc : generateTC ("001") ("R1") (Nat.repr 1) ⟨2024, 3, 7, 9, 5⟩
      = "20240307-001-R1-0905-000001" := by rfl
  rw [postSale]
  norm_num [db0, dt0, List.find?, priceCart, saleItemDocs, applySaleInventory, invInc,
    dbA, txA, docsA, htc]
  intro hc
  exact absurd hc (by decide)

/-- Evaluation of the first two-unit refund. -/
theorem postRefund_dbB_eval :
    postRefund dbA 1 [⟨1, 2⟩] dt0 = .ok (dbB, txB, docsB) := by
  have htc : generateTC ("001") ("R1") (Nat.repr 2) ⟨2024, 3, 7, 9, 5⟩
      = "20240307-001-R1-0905-000002" := by rfl
  have habs : |(2 : Rat)| = 2 := abs_of_pos (by norm_num)
  rw [postRefund]
  norm_num [dbA, db0, dt0, txA, docsA, List.find?, List.filter, originalItemsOf,
    buildRefundLines, perUnitTax, refundItemDocs, applyRefundInventory, invInc,
    refundTypeGuard, typeTruthy, dbB, txB, docsB, htc, habs]

/-- Evaluation of the second two-unit refund: the bound is re-checked only
against the original line's quantity 2, so it succeeds as well. -/
theorem postRefund_dbC_eval :
    postRefund dbB 1 [⟨1, 2⟩] dt0 = .ok (dbC, txC, docsC) := by
  have htc : generateTC ("001") ("R1") (Nat.repr 3) ⟨2024, 3, 7, 9, 5⟩
      = "20240307-001-R1-0905-000003" := by rfl
  have habs : |(2 : Rat)| = 2 := abs_of_pos (by norm_num)
  rw [postRefund]
  norm_num [dbB, db0, dt0, txA, txB, docsA, docsB, List.find?, List.filter,
    originalItemsOf, buildRefundLines, perUnitTax, refundItemDocs,
    applyRefundInventory, invInc, refundTypeGuard, typeTruthy, dbC, txC, docsC,
    htc, habs]

/-- C2 witness: the second two-unit refund, posted from a state that
already contains a prior refund line (whose tax_amount is negative), still
yields a nonpositive total; the nonnegativity hypothesis only concerns the
referenced original SALE's lines. -/
theorem refund_totals_witness : txC.total ≤ 0 :=
  (refund_totals dbB 1 [⟨1, 2⟩] dt0 dbC txC docsC
    (by
      intro ti hti htr
      simp only [dbB, db0, docsA, docsB, List.mem_append,
        List.mem_singleton] at hti
      rcases hti with h1 | h1 <;> subst h1
      · exact ⟨by norm_num, by norm_num⟩
      · simp at htr)
    postRefund_dbC_eval).2

/-- C8: the refund quantity bound is checked only against the single
original line's purchased quantity, not against previously issued
refunds: after selling 2 units, two successive refund requests of 2 units
each both succeed, the purchased quantity was 2, and the combined refunded
quantity is 4; the inventory ends 2 units above its pre-sale value. -/
theorem refund_cumulative_not_checked :
    postSale db0 1 1 [⟨1, 2⟩] ("CASH") dt0 = .ok (dbA, txA, docsA) ∧
    postRefund dbA 1 [⟨1, 2⟩] dt0 = .ok (dbB, txB, docsB) ∧
    postRefund dbB 1 [⟨1, 2⟩] dt0 = .ok (dbC, txC, docsC) ∧
    (docsA.map (fun d => d.quantity)).sum = 2 ∧
    (docsB.map (fun d => d.quantity)).sum + (docsC.map (fun d => d.quantity)).sum
      = -4 ∧
    invGet dbC.inventory (1, 1) = invGet db0.inventory (1, 1) + 2 := by
  refine ⟨postSale_dbA_eval, postRefund_dbB_eval, postRefund_dbC_eval, ?_, ?_, ?_⟩
  · norm_num [docsA]
  · norm_num [docsB, docsC]
  · norm_num [dbC, db0, invGet]

end POS
